import Mathlib

set_option maxRecDepth 100000

/-!
# Verification of the Legal Document Analyzer dispatch/fallback layer

Shallow embedding of the three source files of the repository:

* `src/api/legal-ai.js`   — backend router (`handler`), the `LegalAIService`
  operations and their static fallback payloads;
* `src/api-integrations.js` — the client dispatcher `legalAPIs._callServerless`;
* `src/main.js`           — upload staging (`handleFileUpload`).

External HTTP services (Gemini, Google Translate, Google Natural Language,
Hugging Face) are modelled as deterministic oracles: a call either returns a
value (`Except.ok`) or fails/throws (`Except.error msg`, where `msg` plays the
role of the JS `error.message`).  JS strings are Lean `String`s; JS objects
that cross the API boundary are modelled by the `JVal` type so that field
names are part of the model.  JS truthiness of a string is `s ≠ ""`; of an
optional value, `Option.isSome` combined with non-emptiness where the source
tests `||`/`!x`.
-/

namespace LegalDoc

/-- JSON-style runtime value, used for payloads whose JS object shape
(field names) is observable at the API boundary. -/
inductive JVal where
  | jnull
  | jbool (b : Bool)
  | jnum (q : Rat)
  | jstr (s : String)
  | jarr (xs : List JVal)
  | jobj (fields : List (String × JVal))

/-- Key set of a JS object value (in declaration order). -/
def objKeys : JVal → List String
  | .jobj fields => fields.map Prod.fst
  | _ => []

/-- Lookup of the string stored under a field of a JS object. -/
def strField (key : String) : JVal → Option String
  | .jobj fields =>
    match fields.lookup key with
    | some (.jstr s) => some s
    | _ => none
  | _ => none

/-- Environment-provided credentials (`process.env` as read by `API_CONFIG`
in `src/api/legal-ai.js`).  `none` models an unset variable. -/
structure Env where
  geminiKey : Option String
  translateKey : Option String
  documentAIKey : Option String
  naturalLanguageKey : Option String
  huggingfaceKey : Option String

/-- JS truthiness of an environment variable (`!!API_CONFIG.X.API_KEY`):
present and non-empty. -/
def keyPresent : Option String → Bool
  | none => false
  | some s => s != ""

/-- `this.availableServices` computed in the `LegalAIService` constructor
(`src/api/legal-ai.js` lines 73–81); the `ai` member, a one-element list holding `gemini`, is constant
and is rendered directly in `servicesJ`. -/
structure Services where
  nlp : Bool
  documentAI : Bool
  translation : Bool
  huggingface : Bool
deriving DecidableEq

def mkServices (env : Env) : Services :=
  ⟨keyPresent env.naturalLanguageKey, keyPresent env.documentAIKey,
   keyPresent env.translateKey, keyPresent env.huggingfaceKey⟩

/-- An entity returned by the Google Natural Language API
(`data.entities[i]`), restricted to the fields the program reads. -/
structure NLEntity where
  name : String
  etype : String
deriving DecidableEq

/-- Result shape produced by `_analyzeWithNaturalLanguage` on success:
`{entities, sentiment: {score}}` (the `syntax`/`classification` members are
never read by any caller and are omitted). -/
structure NLPRes where
  entities : List NLEntity
  score : Rat
deriving DecidableEq

/-- The external services as deterministic oracles.  Each models one fetch /
SDK call: `Except.error m` is a thrown error with `error.message = m`. -/
structure Upstream where
  gemini : String → Except String String
  nlpApi : String → Except String NLPRes
  translateApi : String → String → String → Except String String
  hfApi : String → Except String (Option String)

/-- `LegalAIService._analyzeWithNaturalLanguage` (lines 360–397): truncates
its input to 10000 chars and catches every failure, returning
`{entities: [], sentiment: {score: 0}}`. -/
def analyzeNL (u : Upstream) (text : String) : NLPRes :=
  match u.nlpApi (text.take 10000) with
  | .ok r => r
  | .error _ => ⟨[], 0⟩

/-- System instruction prepended by `_callGemini` (line 345). -/
def geminiSystemPrompt : String :=
  "You are an expert legal AI assistant specializing in Indian law and legal document analysis. Provide accurate, detailed, and practical legal insights. Focus on Indian legal framework, acts, and precedents."

/-- `LegalAIService._callGemini` (lines 343–357): prepends the system prompt,
and rethrows any upstream failure as `Gemini API error: <message>`. -/
def callGemini (u : Upstream) (prompt : String) : Except String String :=
  match u.gemini (geminiSystemPrompt ++ "\n\n" ++ prompt) with
  | .ok t => .ok t
  | .error m => .error ("Gemini API error: " ++ m)

/-- `Array.prototype.join` with a comma-space separator, on a list of strings. -/
def joinComma : List String → String
  | [] => ""
  | [s] => s
  | s :: rest => s ++ ", " ++ joinComma rest

/-! ## Prompt builders (verbatim templates from `src/api/legal-ai.js`) -/

/-- `_buildLegalPrompt` (lines 434–449). -/
def buildLegalPrompt (question context : String) : String :=
  "As an expert in Indian law, please provide a comprehensive answer to this legal question:\n\nQuestion: "
    ++ question ++ "\n\nContext: " ++ context
    ++ "\n\nPlease include:\n1. Relevant Indian laws and sections\n2. Legal precedents if applicable\n3. Practical implications\n4. Step-by-step guidance\n5. Important deadlines or procedures\n\nResponse:"

/-- `typeInstructions[type]` in `_buildSummarizationPrompt`; an unknown key
yields JS `undefined`, which the template interpolates as `"undefined"`. -/
def typeInstr (ty : String) : String :=
  if ty = "comprehensive" then "Provide a comprehensive summary covering all key aspects"
  else if ty = "executive" then "Focus on executive-level insights and key decisions"
  else if ty = "keypoints" then "Extract and list the most important key points"
  else if ty = "timeline" then "Present events and decisions in chronological order"
  else "undefined"

/-- `lengthInstructions[length]` in `_buildSummarizationPrompt`. -/
def lengthInstr (ln : String) : String :=
  if ln = "short" then "in 2-3 concise paragraphs"
  else if ln = "medium" then "in 4-6 detailed paragraphs"
  else if ln = "long" then "in a comprehensive analysis with multiple sections"
  else "undefined"

/-- `_buildSummarizationPrompt` (lines 451–484), including the literal
indentation of the template. -/
def buildSummPrompt (text ty ln nlpAnalysis : String) : String :=
  "You are an expert legal document analyst specializing in Indian law. \n        Please analyze the following legal document and provide a "
    ++ ty ++ " summary " ++ lengthInstr ln ++ ".\n\n        " ++ typeInstr ty
    ++ "\n\n        " ++ (if nlpAnalysis ≠ "" then "NLP Analysis Insights: " ++ nlpAnalysis else "")
    ++ "\n\n        Document to analyze:\n        " ++ text.take 4000
    ++ "...\n\n        Please structure your summary with:\n        1. Document Type and Overview\n        2. Key Legal Issues\n        3. Important Parties Involved\n        4. Critical Dates and Deadlines\n        5. Legal Implications\n        6. Actionable Items (if any)\n\n        Summary:"

/-- `_buildSearchPrompt` (lines 486–502). -/
def buildSearchPrompt (query documentText : String) : String :=
  "You are an AI legal research assistant specializing in Indian law. \n        Based on the following document content, please perform a semantic search for: \""
    ++ query ++ "\"\n\n        Document content:\n        " ++ documentText.take 3000
    ++ "...\n\n        Please provide:\n        1. Relevant sections that match the search query\n        2. Legal concepts and terms related to the query\n        3. Any applicable Indian laws or acts mentioned\n        4. Case law references if any\n        5. Practical implications\n        6. Related legal concepts to explore\n\n        Search Results:"

/-- Inline prompt of `compareDocuments` (lines 269–281). -/
def comparePrompt (doc1 doc2 : String) : String :=
  "As a legal AI expert specializing in Indian law, compare these two documents and provide:\n            1. Key differences\n            2. Similar clauses\n            3. Legal implications of differences\n            4. Recommendations\n\n            Document 1:\n            "
    ++ doc1.take 2000 ++ "...\n\n            Document 2:\n            " ++ doc2.take 2000
    ++ "...\n\n            Please provide a detailed comparison analysis:"

/-- Inline prompt of `assessLegalRisk` (lines 313–324). -/
def riskPrompt (documentText : String) : String :=
  "As a legal risk analyst specializing in Indian law, assess the legal risks in this document:\n\n            "
    ++ documentText.take 3000
    ++ "...\n\n            Provide:\n            1. Risk level (Low/Medium/High)\n            2. Specific risk factors\n            3. Legal compliance issues\n            4. Mitigation recommendations\n            5. Relevant Indian laws/acts\n\n            Assessment:"

/-! ## Static fallback payloads (verbatim from `src/api/legal-ai.js`) -/

/-- `_getFallbackLegalResponse` (lines 532–559). -/
def fallbackLegal (question : String) : String :=
  "**Legal Question: \"" ++ question ++ "\"**\n\n⚠️ *This is a demonstration response. Configure your Gemini API key for full functionality.*\n\nFor comprehensive legal advice on this question, I recommend:\n\n**Relevant Indian Legal Framework:**\n- The Indian Constitution (Fundamental Rights & DPSP)\n- Indian Contract Act, 1872\n- Indian Penal Code, 1860\n- Code of Civil Procedure, 1908\n- Indian Evidence Act, 1872\n\n**Recommended Actions:**\n1. Consult with a qualified legal practitioner\n2. Review relevant case law on legal databases\n3. Check for recent amendments to applicable acts\n4. Consider jurisdiction-specific variations\n\n**Legal Resources:**\n- Supreme Court of India judgments\n- High Court decisions\n- Legal databases (Manupatra, SCC Online)\n- Bar Council of India guidelines\n\n*For personalized legal advice, please consult with a licensed attorney.*"

/-- `_getFallbackSummary` (lines 561–576). -/
def fallbackSummary (summaryType summaryLength : String) : String :=
  "**Enhanced Document Summary (" ++ summaryType ++ " - " ++ summaryLength
    ++ ")**\n\n⚠️ *This is a demonstration summary. Configure your Gemini API key for intelligent analysis.*\n\n**Gemini AI Analysis Available:**\nWith proper API configuration, this system provides:\n\n✅ **Gemini AI Integration** - Advanced legal analysis\n✅ **Document Structure Analysis** (Google Document AI)\n✅ **Natural Language Processing** (Google Natural Language)\n✅ **Specialized Legal Models** (Hugging Face)\n\n**Setup Required:**\nConfigure your GEMINI_API_KEY environment variable to unlock all AI-powered features for comprehensive legal document analysis."

/-- `_getFallbackTranslation` (lines 578–590); `sourceLang`/`targetLang` are
accepted but unused by the template. -/
def fallbackTranslation (text _sourceLang _targetLang : String) : String :=
  "**Enhanced Translation System**\n\nOriginal text: " ++ text
    ++ "\n\nConfigure Google Translate API for professional legal document translation with:\n- Context-aware translation\n- Legal terminology preservation\n- Entity recognition\n- Quality assurance\n\n*Sample translation shown - configure APIs for full functionality.*"

/-- `_getFallbackSearchResults` (lines 592–611). -/
def fallbackSearch (query : String) : String :=
  "**Gemini AI Semantic Search Results for: \"" ++ query
    ++ "\"**\n\n⚠️ *Configure your Gemini API key for comprehensive search capabilities.*\n\n**Enhanced Search Features Available:**\n🔍 **Google Natural Language API** - Entity and sentiment analysis\n🤖 **Gemini AI** - Advanced reasoning and analysis\n📄 **Document AI** - Structure and content understanding\n⚖️ **Legal Specialization** - Indian law expertise\n\n**Sample Legal Database Results:**\n1. **Indian Contract Act, 1872** - Sections related to your query\n2. **Indian Penal Code, 1860** - Criminal law provisions\n3. **Constitution of India** - Fundamental rights and duties\n4. **Recent Case Law** - Supreme Court and High Court decisions\n\n**Setup Instructions:**\nConfigure your GEMINI_API_KEY environment variable to unlock intelligent semantic search."

/-- Fallback string of `compareDocuments` (line 287). -/
def compareFailText : String :=
  "Document comparison failed. Please check your configuration."

/-! ## The six operations -/

/-- `LegalAIService.askLegalQuestion` (lines 84–110).  The NLP enrichment
wrapper is total (`analyzeNL` catches internally), so only the Gemini call can
throw; `response || fallback` maps an empty (falsy) result to the fallback. -/
def askLegalQuestion (env : Env) (u : Upstream) (question documentContext : String) : String :=
  let svc := mkServices env
  let enhancedContext :=
    if svc.nlp ∧ documentContext ≠ "" then
      let r := analyzeNL u (documentContext.take 1000)
      let names := joinComma (r.entities.map NLEntity.name)
      documentContext
        ++ "\n\nKey entities: " ++ (if names = "" then "None detected" else names)
        ++ "\nDocument sentiment: " ++ (if r.score = 0 then "neutral" else toString r.score)
    else documentContext
  match callGemini u (buildLegalPrompt question enhancedContext) with
  | .ok t => if t = "" then fallbackLegal question else t
  | .error _ => fallbackLegal question

/-- `_formatNLPAnalysis` (lines 504–511).  (`!nlpResult.entities` is never
taken: a JS array, even empty, is truthy.) -/
def formatNLP (r : NLPRes) : String :=
  let ents := joinComma ((r.entities.take 10).map (fun e => e.name ++ " (" ++ e.etype ++ ")"))
  "Key entities detected: " ++ ents ++ ". Document sentiment: "
    ++ (if (1 : Rat)/10 < r.score then "positive"
        else if r.score < -((1 : Rat)/10) then "negative" else "neutral") ++ "."

/-- `_summarizeWithHuggingFace` (lines 400–431): truncates input to 1000
chars and catches every failure, returning `null`. -/
def hfSummarize (u : Upstream) (text : String) : Option String :=
  match u.hfApi (text.take 1000) with
  | .ok r => r
  | .error _ => none

/-- JS falsiness of the `summary` variable after the Hugging Face step:
`null`/`undefined`/`""`. -/
def optFalsy : Option String → Bool
  | none => true
  | some s => s == ""

/-- `LegalAIService.summarizeDocument` (lines 113–151). -/
def summarizeDocument (env : Env) (u : Upstream) (documentText summaryType summaryLength : String) : String :=
  let svc := mkServices env
  let enhancedAnalysis := if svc.nlp then formatNLP (analyzeNL u (documentText.take 5000)) else ""
  let prompt := buildSummPrompt documentText summaryType summaryLength enhancedAnalysis
  let hfRes : Option String := if svc.huggingface then hfSummarize u documentText else none
  if optFalsy hfRes then
    match callGemini u prompt with
    | .ok t => if t = "" then fallbackSummary summaryType summaryLength else t
    | .error _ => fallbackSummary summaryType summaryLength
  else hfRes.getD ""

/-- The regex literal `/\[Legal entities:.*?\]/g` : its fixed head… -/
def leMarker : List Char := "[Legal entities:".data

/-- …and the part of the marker after the opening bracket. -/
def leInner : List Char := "Legal entities:".data

/-- JS regex `.` does not match line terminators. -/
def isLineTerm (c : Char) : Bool :=
  c == '\n' || c == '\r' || c == ' ' || c == ' '

/-- Index of the first `]` reachable by `.*?` (i.e. with no line terminator
before it); `none` when the non-greedy match cannot close. -/
def findCloseIdx : List Char → Option Nat
  | [] => none
  | c :: rest =>
    if c = ']' then some 0
    else if isLineTerm c then none
    else match findCloseIdx rest with
      | some i => some (i + 1)
      | none => none

/-- One left-to-right pass of `String.prototype.replace` with the global
regex `/\[Legal entities:.*?\]/g` and the empty replacement: at each position, if
the marker matches and the non-greedy `.*?]` can close, the whole match is
deleted and scanning resumes after it (no rescan of the replacement); the
fuel is an upper bound on the number of steps (each step consumes at least
one character). -/
def stripLEAux : Nat → List Char → List Char
  | 0, s => s
  | _ + 1, [] => []
  | fuel + 1, c :: rest =>
    if leMarker.isPrefixOf (c :: rest) then
      match findCloseIdx ((c :: rest).drop leMarker.length) with
      | some i => stripLEAux fuel (((c :: rest).drop leMarker.length).drop (i + 1))
      | none => c :: stripLEAux fuel rest
    else c :: stripLEAux fuel rest

/-- The `translation.replace` call with the global regex and empty replacement (line 200). -/
def stripLegalEnt (s : String) : String := ⟨stripLEAux s.data.length s.data⟩

/-- Whitespace as trimmed by `String.prototype.trim` (restricted to the
ASCII whitespace the program can produce). -/
def jsWs (c : Char) : Bool := c.isWhitespace

/-- List-level both-ends trim. -/
def trimL (l : List Char) : List Char :=
  ((l.dropWhile jsWs).reverse.dropWhile jsWs).reverse

/-- `String.prototype.trim` (line 202). -/
def jsTrim (s : String) : String := ⟨trimL s.data⟩

/-- Does `s` contain `sub` as a substring (`String.prototype.includes`)? -/
def containsStr (s sub : String) : Bool := decide (sub.data <:+: s.data)

/-- The entities the translation path keeps for its context note
(`ORGANIZATION`/`PERSON` filter, line 167). -/
def translateEnts (u : Upstream) (text : String) : List NLEntity :=
  (analyzeNL u text).entities.filter (fun e => e.etype == "ORGANIZATION" || e.etype == "PERSON")

/-- The `contextualText` sent to Google Translate (lines 163–176): the input
plus, when NLP is configured, the text is longer than 100 chars and at least
one organisation/person entity was found, an appended context note. -/
def contextualTextOf (env : Env) (u : Upstream) (text : String) : String :=
  if (mkServices env).nlp ∧ 100 < text.length then
    let ents := translateEnts u text
    if 0 < ents.length then
      text ++ "\n\n[Legal entities: " ++ joinComma (ents.map NLEntity.name) ++ "]"
    else text
  else text

/-- `true` exactly when `translateText` appends the `[Legal entities: …]`
context note before the upstream call. -/
def contextNoteAdded (env : Env) (u : Upstream) (text : String) : Bool :=
  (mkServices env).nlp && decide (100 < text.length) && decide (0 < (translateEnts u text).length)

/-- `LegalAIService.translateText` (lines 154–208). -/
def translateText (env : Env) (u : Upstream) (text sourceLang targetLang : String) : String :=
  if (mkServices env).translation then
    match u.translateApi (contextualTextOf env u text) sourceLang targetLang with
    | .ok tr => jsTrim (stripLegalEnt tr)
    | .error _ => fallbackTranslation text sourceLang targetLang
  else fallbackTranslation text sourceLang targetLang

/-- `_combineSearchResults` (lines 513–529); `results` is the list of
`{source, results}` pairs. -/
def combineSearchResults (results : List (String × String)) (query : String) : String :=
  if results.length = 0 then fallbackSearch query
  else
    "**Enhanced Semantic Search Results for: \"" ++ query ++ "\"**\n\n"
      ++ String.join (results.map (fun r => "### " ++ r.1 ++ " Analysis\n" ++ r.2 ++ "\n\n"))
      ++ "\n**Gemini AI Analysis Complete** ✅\nUsed " ++ toString results.length
      ++ " service(s) for comprehensive analysis."

/-- `LegalAIService.performSemanticSearch` (lines 211–262).  The NLP and
legal-entity searches are local stubs that never throw (lines 614–622); only
the Gemini call can throw, landing in the fallback. -/
def performSemanticSearch (env : Env) (u : Upstream) (query documentText : String) : String :=
  let svc := mkServices env
  let r1 : List (String × String) :=
    if svc.nlp then [("Google Natural Language", "NLP-based search results for: " ++ query)]
    else []
  match callGemini u (buildSearchPrompt query documentText) with
  | .error _ => fallbackSearch query
  | .ok g =>
    let r2 := if g ≠ "" then r1 ++ [("Gemini AI", g)] else r1
    let r3 := if svc.huggingface then
        r2 ++ [("Legal Entity Search", "Legal entity search results for: " ++ query)]
      else r2
    combineSearchResults r3 query

/-- `LegalAIService.compareDocuments` (lines 265–289): the Gemini result is
returned verbatim (no empty-string fallback here). -/
def compareDocuments (_env : Env) (u : Upstream) (doc1 doc2 : String) : String :=
  match callGemini u (comparePrompt doc1 doc2) with
  | .ok t => t
  | .error _ => compareFailText

/-- The `nlpAnalysis` member of a successful risk assessment
(`assessments[0] || null`, line 329). -/
def riskNlpJ (env : Env) (u : Upstream) (documentText : String) : JVal :=
  if (mkServices env).nlp then
    let r := analyzeNL u documentText
    .jobj [("source", .jstr "Natural Language Analysis"),
           ("sentiment", .jobj [("score", .jnum r.score)]),
           ("entities", .jarr (r.entities.map (fun e =>
              .jobj [("name", .jstr e.name), ("type", .jstr e.etype)])))]
  else .jnull

/-- `LegalAIService.assessLegalRisk` (lines 292–338).  `now` models
`new Date().toISOString()`.  On a Gemini failure the catch block returns
`error` field `Risk assessment failed` plus the `details` field holding `error.message`. -/
def assessLegalRisk (env : Env) (u : Upstream) (now documentText : String) : JVal :=
  match callGemini u (riskPrompt documentText) with
  | .ok t =>
    .jobj [("nlpAnalysis", riskNlpJ env u documentText),
           ("aiAssessment", .jstr t),
           ("timestamp", .jstr now)]
  | .error m =>
    .jobj [("error", .jstr "Risk assessment failed"), ("details", .jstr m)]

/-! ## Backend handler (`src/api/legal-ai.js` lines 626–699) -/

/-- `availableServices` as serialized in the `healthCheck` payload. -/
def servicesJ (env : Env) : JVal :=
  let svc := mkServices env
  .jobj [("ai", .jarr [.jstr "gemini"]),
         ("nlp", .jbool svc.nlp),
         ("documentAI", .jbool svc.documentAI),
         ("translation", .jbool svc.translation),
         ("huggingface", .jbool svc.huggingface)]

/-- The `healthCheck` result object (lines 674–678). -/
def healthJ (env : Env) (now : String) : JVal :=
  .jobj [("status", .jstr "healthy"), ("services", servicesJ env), ("timestamp", .jstr now)]

/-- The request body `{action, ...params}`; every parameter any of the seven
actions reads is a field (absent JSON fields are not modelled: no claim
exercises them). -/
structure ReqBody where
  action : String
  question : String
  documentContext : String
  documentText : String
  summaryType : String
  summaryLength : String
  text : String
  sourceLang : String
  targetLang : String
  query : String
  doc1Text : String
  doc2Text : String

/-- A body carrying only an action name. -/
def mkBody (action : String) : ReqBody :=
  ⟨action, "", "", "", "", "", "", "", "", "", "", ""⟩

/-- Outcome of one `handler` invocation: the OPTIONS preflight short-circuit,
or `res.status(st).json({success, data?, error?, timestamp})`. -/
inductive HandlerOut where
  | options
  | reply (status : Nat) (success : Bool) (data : Option JVal) (error : Option String)
      (timestamp : String)

/-- The serverless `handler` (lines 626–699).  `initializeGemini` is invoked
lazily inside the request `try` block (line 640): a missing `GEMINI_API_KEY`
throws there and is caught by the same per-request catch that produces the
500 envelope.  An unmatched `action` throws `Unknown action: <name>` into
that catch. -/
def handler (env : Env) (u : Upstream) (now method : String) (body : ReqBody) : HandlerOut :=
  if method = "OPTIONS" then .options
  else if keyPresent env.geminiKey then
    if body.action = "askLegalQuestion" then
      .reply 200 true (some (.jstr (askLegalQuestion env u body.question body.documentContext))) none now
    else if body.action = "summarizeDocument" then
      .reply 200 true (some (.jstr (summarizeDocument env u body.documentText body.summaryType body.summaryLength))) none now
    else if body.action = "translateText" then
      .reply 200 true (some (.jstr (translateText env u body.text body.sourceLang body.targetLang))) none now
    else if body.action = "performSemanticSearch" then
      .reply 200 true (some (.jstr (performSemanticSearch env u body.query body.documentText))) none now
    else if body.action = "compareDocuments" then
      .reply 200 true (some (.jstr (compareDocuments env u body.doc1Text body.doc2Text))) none now
    else if body.action = "assessLegalRisk" then
      .reply 200 true (some (assessLegalRisk env u now body.documentText)) none now
    else if body.action = "healthCheck" then
      .reply 200 true (some (healthJ env now)) none now
    else .reply 500 false none (some ("Unknown action: " ++ body.action)) now
  else .reply 500 false none (some "GEMINI_API_KEY environment variable is required") now

/-- The express bootstrap at the bottom of `src/api/legal-ai.js` (lines
706–728) runs unconditionally at module load — `app.listen(3000, …)` is not
guarded by any credential check, and `initializeGemini` is only called
lazily inside `handler` — so startup always succeeds. -/
def serverStarts (_env : Env) : Bool := true

/-! ## Client dispatcher (`src/api-integrations.js` lines 94–104) -/

/-- What `_callServerless` observes of one `fetch` of `/api/legal-ai`:
the HTTP status and the decoded JSON envelope. -/
structure ClientResp where
  status : Nat
  success : Bool
  errMsg : Option String
  dataField : Option JVal

/-- `Response.ok`: status in the inclusive range 200–299. -/
def respOk (status : Nat) : Bool := decide (200 ≤ status) && decide (status ≤ 299)

/-- `data.error` defaulted, when falsy, to `Unknown AI error`. -/
def jsErrMsg : Option String → String
  | some e => if e = "" then "Unknown AI error" else e
  | none => "Unknown AI error"

/-- `legalAPIs._callServerless`: non-ok responses throw the fixed
`Serverless AI API error`; a `success:false` envelope throws the reported
message; otherwise the `data` payload is returned unwrapped. -/
def callServerless (r : ClientResp) : Except String (Option JVal) :=
  if respOk r.status then
    if r.success then .ok r.dataField
    else .error (jsErrMsg r.errMsg)
  else .error "Serverless AI API error"

/-! ## Upload staging (`src/main.js` lines 40–67) -/

/-- A browser `File` object, restricted to the fields the program reads. -/
structure JFile where
  fname : String
  fsize : Nat
  ftype : String
deriving DecidableEq

/-- An entry of the `uploadedFiles` list: `{name, size: formatted, type,
file, id}`; the `file` back-reference is kept as the raw byte size. -/
structure FileItem where
  iname : String
  isize : String
  itype : String
  ibytes : Nat
  iid : Nat
deriving DecidableEq

/-- `(x).toFixed(1)` for `x = num/den`, modelled by rounded Nat division on
tenths (the JS float rendering agrees on the ranges this program uses). -/
def toFixed1 (num den : Nat) : String :=
  let t := (num * 10 + den / 2) / den
  toString (t / 10) ++ "." ++ toString (t % 10)

/-- `formatFileSize` (lines 175–179). -/
def formatFileSize (bytes : Nat) : String :=
  if bytes < 1024 then toString bytes ++ " B"
  else if bytes < 1024 * 1024 then toFixed1 bytes 1024 ++ " KB"
  else toFixed1 bytes (1024 * 1024) ++ " MB"

/-- The `fileItem` pushed for an accepted file; `id` models
`Date.now() + Math.random()`. -/
def stageFile (f : JFile) (id : Nat) : FileItem :=
  ⟨f.fname, formatFileSize f.fsize, f.ftype, f.fsize, id⟩

/-- The `files.forEach` loop of `handleFileUpload` (lines 47–62): each file whose
size exceeds `50 * 1024 * 1024` raises an alert and is skipped; every other
file is pushed onto the staged list.  Returns the new staged list and the
alerts raised, in order. -/
def handleFileUpload : List (JFile × Nat) → List FileItem → List String →
    List FileItem × List String
  | [], st, al => (st, al)
  | (f, id) :: rest, st, al =>
    if 50 * 1024 * 1024 < f.fsize then
      handleFileUpload rest st (al ++ ["File " ++ f.fname ++ " exceeds 50MB limit"])
    else
      handleFileUpload rest (st ++ [stageFile f id]) al

/-! ## Concrete fixtures used by witnesses and counterexamples -/

/-- An environment with only the Gemini key configured. -/
def env0 : Env := ⟨some "gk", none, none, none, none⟩

/-- An environment with no credentials at all. -/
def envNoKey : Env := ⟨none, none, none, none, none⟩

/-- Oracles in which every external call fails with message `msg`
(a simulated network error). -/
def uFail (msg : String) : Upstream :=
  ⟨fun _ => .error msg, fun _ => .error msg, fun _ _ _ => .error msg, fun _ => .error msg⟩

/-- Oracles in which Gemini deterministically answers `t` and the optional
services are down. -/
def uGem (t : String) : Upstream :=
  ⟨fun _ => .ok t, fun _ => .error "nlp down", fun q _ _ => .ok q, fun _ => .error "hf down"⟩

/-- An environment with Gemini, Translate and Natural Language keys set
(the configuration in which the translation context note is produced). -/
def envNlpTr : Env := ⟨some "gk", some "tk", none, some "nk", none⟩

/-- Oracles for the translation scenario: Google Translate echoes its input
verbatim (the deterministic mock), the NLP service finds one organisation
entity, Gemini and Hugging Face are down. -/
def uEcho : Upstream :=
  ⟨fun _ => .error "gemini down",
   fun _ => .ok ⟨[⟨"Acme Corp", "ORGANIZATION"⟩], 0⟩,
   fun q _ _ => .ok q,
   fun _ => .error "hf down"⟩

/-- A 106-character input that itself starts with `Legal entities:`. -/
def textCE : String := "Legal entities: " ++ ⟨List.replicate 90 'x'⟩

/-- A 101-character input free of the marker text. -/
def textW : String := ⟨List.replicate 101 'a'⟩

/-! ## C2 — unknown action names -/

/-- C2: for every action name outside the recognized set of seven (the six
operations plus `healthCheck`), the backend handler returns a failure
envelope with `success:false` and error message exactly
`Unknown action: <name>`, with HTTP status 500 (stated for a non-OPTIONS
request with the Gemini key configured, so that dispatch is reached). -/
theorem c2_unknown_action (env : Env) (u : Upstream) (now m : String) (body : ReqBody)
    (hkey : keyPresent env.geminiKey = true) (hm : m ≠ "OPTIONS")
    (ha : body.action ∉ (["askLegalQuestion", "summarizeDocument", "translateText",
      "performSemanticSearch", "compareDocuments", "assessLegalRisk",
      "healthCheck"] : List String)) :
    handler env u now m body
      = .reply 500 false none (some ("Unknown action: " ++ body.action)) now := by
  simp only [List.mem_cons, List.not_mem_nil, or_false, not_or] at ha
  obtain ⟨h1, h2, h3, h4, h5, h6, h7⟩ := ha
  simp [handler, hm, hkey, h1, h2, h3, h4, h5, h6, h7]

/-- C2 witness at the example name `doTheThing` given in the spec. -/
theorem c2_unknown_action_witness :
    handler env0 (uFail "x") "t0" "POST" (mkBody "doTheThing")
      = .reply 500 false none (some "Unknown action: doTheThing") "t0" :=
  c2_unknown_action env0 (uFail "x") "t0" "POST" (mkBody "doTheThing")
    (by decide) (by decide) (by decide)

/-! ## C3 — missing GEMINI_API_KEY -/

/-- C3 counterexample: with `GEMINI_API_KEY` unset the backend still starts
(the express bootstrap is unguarded), and a request — here the very
`healthCheck` — is answered with a per-request 500 failure envelope rather
than failing at startup; this refutes "startup-fatal … not a per-request
error". -/
theorem c3_counterexample :
    serverStarts envNoKey = true ∧
    handler envNoKey (uFail "x") "t0" "POST" (mkBody "healthCheck")
      = .reply 500 false none (some "GEMINI_API_KEY environment variable is required") "t0" :=
  ⟨rfl, rfl⟩

/-- C3 amended: absence of `GEMINI_API_KEY` is not startup-fatal — the
backend starts regardless, `initializeGemini` runs lazily inside the request
handler, and every non-OPTIONS request (whatever its action) individually
fails with a 500 envelope whose error is
`GEMINI_API_KEY environment variable is required`. -/
theorem c3_amended (env : Env) (u : Upstream) (now m : String) (body : ReqBody)
    (hkey : keyPresent env.geminiKey = false) (hm : m ≠ "OPTIONS") :
    serverStarts env = true ∧
    handler env u now m body
      = .reply 500 false none (some "GEMINI_API_KEY environment variable is required") now := by
  refine ⟨rfl, ?_⟩
  simp [handler, hm, hkey]

/-- C3 amended witness. -/
theorem c3_amended_witness :
    serverStarts envNoKey = true ∧
    handler envNoKey (uFail "x") "t1" "POST" (mkBody "askLegalQuestion")
      = .reply 500 false none (some "GEMINI_API_KEY environment variable is required") "t1" :=
  c3_amended envNoKey (uFail "x") "t1" "POST" (mkBody "askLegalQuestion")
    (by decide) (by decide)

/-! ## C6 — healthCheck -/

/-- C6: with the Gemini key configured, the `healthCheck` action returns a
200 success envelope whose payload is the availability record; the reply is
independent of every external-service oracle (no network call and no
upstream model call is consulted), and the `services` record is derived
solely from the presence of the environment-provided API keys. -/
theorem c6_healthCheck (env : Env) (u u' : Upstream) (now : String) (body : ReqBody)
    (hkey : keyPresent env.geminiKey = true) (hb : body.action = "healthCheck") :
    handler env u now "POST" body = .reply 200 true (some (healthJ env now)) none now
    ∧ handler env u now "POST" body = handler env u' now "POST" body
    ∧ ∀ env' : Env,
        keyPresent env'.naturalLanguageKey = keyPresent env.naturalLanguageKey →
        keyPresent env'.documentAIKey = keyPresent env.documentAIKey →
        keyPresent env'.translateKey = keyPresent env.translateKey →
        keyPresent env'.huggingfaceKey = keyPresent env.huggingfaceKey →
        servicesJ env' = servicesJ env := by
  refine ⟨?_, ?_, ?_⟩
  · simp [handler, hb, hkey]
  · simp [handler, hb, hkey]
  · intro env' h1 h2 h3 h4
    simp [servicesJ, mkServices, h1, h2, h3, h4]

/-- C6 witness at a concrete environment and two unrelated oracle sets. -/
theorem c6_healthCheck_witness :
    handler env0 (uFail "x") "t0" "POST" (mkBody "healthCheck")
      = .reply 200 true (some (healthJ env0 "t0")) none "t0" :=
  (c6_healthCheck env0 (uFail "x") (uGem "y") "t0" (mkBody "healthCheck")
    (by decide) (by decide)).1

/-! ## C8 — upload staging -/

/-- C8: in upload staging, a file whose size exceeds the 50MB ceiling
(`50 * 1024 * 1024 = 52428800` bytes) is rejected with a user-facing alert
and is not added to the staged-file list, while a file within the ceiling is
appended to the staged list by one upload event exactly once (its occurrence
count grows by exactly one). -/
theorem c8_upload (f : JFile) (id : Nat) (st : List FileItem) :
    (52428800 < f.fsize →
      handleFileUpload [(f, id)] st []
        = (st, ["File " ++ f.fname ++ " exceeds 50MB limit"])) ∧
    (f.fsize ≤ 52428800 →
      handleFileUpload [(f, id)] st [] = (st ++ [stageFile f id], []) ∧
      (st ++ [stageFile f id]).count (stageFile f id)
        = st.count (stageFile f id) + 1 ∧
      (stageFile f id ∉ st → (st ++ [stageFile f id]).count (stageFile f id) = 1)) := by
  constructor
  · intro h
    simp [handleFileUpload, h]
  · intro h
    refine ⟨?_, ?_, ?_⟩
    · simp [handleFileUpload, Nat.not_lt.mpr h]
    · simp
    · intro hni
      simp [List.count_eq_zero_of_not_mem hni]

/-- C8 witness at the example sizes 52428801 and 1024 bytes given in the spec. -/
theorem c8_upload_witness :
    handleFileUpload [(⟨"big.pdf", 52428801, "application/pdf"⟩, 7)] [] []
      = ([], ["File big.pdf exceeds 50MB limit"]) ∧
    handleFileUpload [(⟨"small.txt", 1024, "text/plain"⟩, 8)] [] []
      = ([stageFile ⟨"small.txt", 1024, "text/plain"⟩ 8], []) ∧
    [stageFile ⟨"small.txt", 1024, "text/plain"⟩ 8].count
        (stageFile ⟨"small.txt", 1024, "text/plain"⟩ 8) = 1 :=
  ⟨(c8_upload ⟨"big.pdf", 52428801, "application/pdf"⟩ 7 []).1 (by decide),
   ((c8_upload ⟨"small.txt", 1024, "text/plain"⟩ 8 []).2 (by decide)).1,
   (((c8_upload ⟨"small.txt", 1024, "text/plain"⟩ 8 []).2 (by decide)).2.2
     (by decide))⟩

/-! ## C9 — summarizeDocument determinism -/

/-- C9: `summarizeDocument` is deterministic in
`{documentText, summaryType, summaryLength}`: its output depends only on
those inputs, the nlp/huggingface availability flags and the (deterministic,
mocked) nlp/huggingface/Gemini oracles — in particular it is independent of
the clock, of the translation credentials and of the translation oracle —
so two calls with identical inputs against identical such state yield
identical output. -/
theorem c9_summarize_deterministic (env env' : Env) (u u' : Upstream)
    (documentText summaryType summaryLength : String)
    (hn : (mkServices env).nlp = (mkServices env').nlp)
    (hh : (mkServices env).huggingface = (mkServices env').huggingface)
    (hg : u.gemini = u'.gemini) (hnl : u.nlpApi = u'.nlpApi) (hhf : u.hfApi = u'.hfApi) :
    summarizeDocument env u documentText summaryType summaryLength
      = summarizeDocument env' u' documentText summaryType summaryLength := by
  simp only [summarizeDocument, analyzeNL, hfSummarize, callGemini, hn, hh, hg, hnl, hhf]

/-- C9 witness: two environments differing in translation credentials and
translation oracle produce the same summary. -/
theorem c9_summarize_deterministic_witness :
    summarizeDocument env0 (uGem "S") "doc" "comprehensive" "medium"
      = summarizeDocument ⟨some "gk", some "tk", none, none, none⟩
          ⟨fun _ => .ok "S", fun _ => .error "nlp down", fun _ _ _ => .error "translate down",
           fun _ => .error "hf down"⟩ "doc" "comprehensive" "medium" :=
  c9_summarize_deterministic env0 ⟨some "gk", some "tk", none, none, none⟩
    (uGem "S") _ "doc" "comprehensive" "medium" (by decide) (by decide) rfl rfl rfl

/-! ## C10 — empty upstream result triggers fallback -/

/-- C10: when the upstream model call succeeds but returns an empty (falsy)
string, `askLegalQuestion` and `summarizeDocument` still return their static
fallback payloads (stated with the Hugging Face path unavailable, so the
summarization result is the Gemini one): fallback substitution is triggered
by an empty result, not only by a thrown error. -/
theorem c10_empty_result (env : Env) (u : Upstream)
    (question documentContext documentText summaryType summaryLength : String)
    (hg : ∀ p, u.gemini p = .ok "")
    (hhf : (mkServices env).huggingface = false) :
    askLegalQuestion env u question documentContext = fallbackLegal question ∧
    summarizeDocument env u documentText summaryType summaryLength
      = fallbackSummary summaryType summaryLength := by
  constructor
  · simp [askLegalQuestion, callGemini, hg]
  · simp [summarizeDocument, callGemini, hg, hhf, optFalsy]

/-- C10 witness: a Gemini mock that always answers the empty string. -/
theorem c10_empty_result_witness :
    askLegalQuestion env0 (uGem "") "What is bail?" "" = fallbackLegal "What is bail?" ∧
    summarizeDocument env0 (uGem "") "doc" "comprehensive" "medium"
      = fallbackSummary "comprehensive" "medium" :=
  c10_empty_result env0 (uGem "") "What is bail?" "" "doc" "comprehensive" "medium"
    (fun _ => rfl) (by decide)

/-! ## C1 — per-operation fallbacks on upstream failure -/

/-- C1 counterexample: the payload `assessLegalRisk` returns when the
upstream call fails is not a predefined (static) fallback — it embeds the
upstream error message in its `details` field, so two runs that differ only
in the upstream failure message return different payloads (each inside a
`success:true` envelope). -/
theorem c1_counterexample :
    strField "details" (assessLegalRisk env0 (uFail "socket hang up") "t0" "doc")
      = some "Gemini API error: socket hang up"
    ∧ strField "details" (assessLegalRisk env0 (uFail "ECONNREFUSED") "t0" "doc")
      = some "Gemini API error: ECONNREFUSED"
    ∧ assessLegalRisk env0 (uFail "socket hang up") "t0" "doc"
      ≠ assessLegalRisk env0 (uFail "ECONNREFUSED") "t0" "doc" := by
  refine ⟨rfl, rfl, fun h => ?_⟩
  have h2 : (some "Gemini API error: socket hang up" : Option String)
      = some "Gemini API error: ECONNREFUSED" := congrArg (strField "details") h
  exact absurd h2 (by decide)

/-- C1 amended: when every upstream call is made to fail (a simulated
network error), each of the six operations catches the error and returns its
catch-block fallback — the predefined fallback template of that operation over the
request inputs for the five text operations, and for `assessLegalRisk` the
fixed-shape record with `error` field `Risk assessment failed` and `details` field <upstream
error message>}` — and the handler still answers each of the six actions
with a `success:true` 200 envelope; no operation rethrows. -/
theorem c1_all_ops_fallback (env : Env) (u : Upstream)
    (now question documentContext documentText summaryType summaryLength
      text sourceLang targetLang query doc1 doc2 eg et en eh : String)
    (hg : ∀ p, u.gemini p = .error eg)
    (ht : ∀ q a b, u.translateApi q a b = .error et)
    (_hn : ∀ p, u.nlpApi p = .error en)
    (hh : ∀ p, u.hfApi p = .error eh) :
    askLegalQuestion env u question documentContext = fallbackLegal question
    ∧ summarizeDocument env u documentText summaryType summaryLength
        = fallbackSummary summaryType summaryLength
    ∧ translateText env u text sourceLang targetLang
        = fallbackTranslation text sourceLang targetLang
    ∧ performSemanticSearch env u query documentText = fallbackSearch query
    ∧ compareDocuments env u doc1 doc2 = compareFailText
    ∧ assessLegalRisk env u now documentText
        = .jobj [("error", .jstr "Risk assessment failed"),
                 ("details", .jstr ("Gemini API error: " ++ eg))]
    ∧ (keyPresent env.geminiKey = true → ∀ body : ReqBody,
        body.action ∈ (["askLegalQuestion", "summarizeDocument", "translateText",
          "performSemanticSearch", "compareDocuments",
          "assessLegalRisk"] : List String) →
        ∃ d : JVal, handler env u now "POST" body = .reply 200 true (some d) none now) := by
  refine ⟨?_, ?_, ?_, ?_, ?_, ?_, ?_⟩
  · simp [askLegalQuestion, callGemini, hg]
  · simp [summarizeDocument, hfSummarize, callGemini, hg, hh, optFalsy]
  · simp [translateText, ht]
  · simp [performSemanticSearch, callGemini, hg]
  · simp [compareDocuments, callGemini, hg]
  · simp [assessLegalRisk, callGemini, hg]
  · intro hkey body hmem
    simp only [List.mem_cons, List.not_mem_nil, or_false] at hmem
    rcases hmem with h | h | h | h | h | h
    · exact ⟨.jstr (askLegalQuestion env u body.question body.documentContext),
        by simp [handler, hkey, h]⟩
    · exact ⟨.jstr (summarizeDocument env u body.documentText body.summaryType
        body.summaryLength), by simp [handler, hkey, h]⟩
    · exact ⟨.jstr (translateText env u body.text body.sourceLang body.targetLang),
        by simp [handler, hkey, h]⟩
    · exact ⟨.jstr (performSemanticSearch env u body.query body.documentText),
        by simp [handler, hkey, h]⟩
    · exact ⟨.jstr (compareDocuments env u body.doc1Text body.doc2Text),
        by simp [handler, hkey, h]⟩
    · exact ⟨assessLegalRisk env u now body.documentText, by simp [handler, hkey, h]⟩

/-- C1 amended witness: a concrete all-failing network. -/
theorem c1_all_ops_fallback_witness :
    askLegalQuestion env0 (uFail "ENETDOWN") "q" "" = fallbackLegal "q"
    ∧ translateText env0 (uFail "ENETDOWN") "hello" "en" "hi"
        = fallbackTranslation "hello" "en" "hi"
    ∧ ∃ d : JVal, handler env0 (uFail "ENETDOWN") "t0" "POST" (mkBody "assessLegalRisk")
        = .reply 200 true (some d) none "t0" := by
  have h := c1_all_ops_fallback env0 (uFail "ENETDOWN") "t0" "q" "" "doc" "comprehensive"
    "medium" "hello" "en" "hi" "query" "d1" "d2" "ENETDOWN" "ENETDOWN" "ENETDOWN" "ENETDOWN"
    (fun _ => rfl) (fun _ _ _ => rfl) (fun _ => rfl) (fun _ => rfl)
  exact ⟨h.1, h.2.2.1, h.2.2.2.2.2.2 (by decide) (mkBody "assessLegalRisk") (by decide)⟩

/-! ## C5 — client dispatcher failure behaviour -/

/-- C5 counterexample: on a non-2xx response the client dispatcher raises
the fixed message `Serverless AI API error`, which does not carry the
network-layer status — the same error is thrown for status 500 and status
404, and its text does not contain the status digits. -/
theorem c5_counterexample :
    callServerless ⟨500, false, some "Unknown action: doTheThing", none⟩
      = .error "Serverless AI API error"
    ∧ callServerless ⟨404, false, none, none⟩ = .error "Serverless AI API error"
    ∧ containsStr "Serverless AI API error" "500" = false := by
  refine ⟨rfl, rfl, by decide⟩

/-- C5 amended: the client dispatcher raises the fixed error
`Serverless AI API error` (not carrying the numeric status) whenever the
HTTP response is non-2xx; raises the backend-reported error message (or
`Unknown AI error` when absent/empty) whenever the envelope has
`success:false`; and otherwise returns the data payload of the envelope
unwrapped. -/
theorem c5_dispatcher (r : ClientResp) :
    (respOk r.status = false → callServerless r = .error "Serverless AI API error")
    ∧ (respOk r.status = true → r.success = false →
        callServerless r = .error (jsErrMsg r.errMsg))
    ∧ (respOk r.status = true → r.success = true → callServerless r = .ok r.dataField) := by
  refine ⟨fun h => ?_, fun h hs => ?_, fun h hs => ?_⟩
  · simp [callServerless, h]
  · simp [callServerless, h, hs]
  · simp [callServerless, h, hs]

/-- C5 amended witness: the three branches at concrete responses. -/
theorem c5_dispatcher_witness :
    callServerless ⟨503, true, none, none⟩ = .error "Serverless AI API error"
    ∧ callServerless ⟨200, false, some "Unknown action: doTheThing", none⟩
        = .error "Unknown action: doTheThing"
    ∧ callServerless ⟨200, true, none, some (.jstr "answer")⟩ = .ok (some (.jstr "answer")) :=
  ⟨(c5_dispatcher ⟨503, true, none, none⟩).1 (by decide),
   (c5_dispatcher ⟨200, false, some "Unknown action: doTheThing", none⟩).2.1
     (by decide) rfl,
   (c5_dispatcher ⟨200, true, none, some (.jstr "answer")⟩).2.2 (by decide) rfl⟩

/-! ## C7 — shape of the risk-assessment result -/

/-- C7 counterexample: a successful `assessLegalRisk` returns a record whose
fields are `nlpAnalysis`, `aiAssessment`, `timestamp` — not the
`{analysis, assessment, timestamp}` stated by the claim. -/
theorem c7_counterexample :
    objKeys (assessLegalRisk env0 (uGem "RISK") "t0" "doc")
      = ["nlpAnalysis", "aiAssessment", "timestamp"]
    ∧ objKeys (assessLegalRisk env0 (uGem "RISK") "t0" "doc")
      ≠ ["analysis", "assessment", "timestamp"] := by
  exact ⟨rfl, by decide⟩

/-- C7 amended: a successful `assessLegalRisk` returns the structured record
`nlpAnalysis`, `aiAssessment`, `timestamp` — the risk text of the upstream model
under `aiAssessment` wrapped with a timestamp, plus the optional NLP
enrichment — while each of the five other operations delivers a plain string
through the handler. -/
theorem c7_risk_shape (env : Env) (u : Upstream) (now documentText t : String)
    (hg : u.gemini (geminiSystemPrompt ++ "\n\n" ++ riskPrompt documentText) = .ok t) :
    assessLegalRisk env u now documentText
      = .jobj [("nlpAnalysis", riskNlpJ env u documentText),
               ("aiAssessment", .jstr t), ("timestamp", .jstr now)]
    ∧ objKeys (assessLegalRisk env u now documentText)
      = ["nlpAnalysis", "aiAssessment", "timestamp"]
    ∧ (keyPresent env.geminiKey = true → ∀ body : ReqBody,
        body.action ∈ (["askLegalQuestion", "summarizeDocument", "translateText",
          "performSemanticSearch", "compareDocuments"] : List String) →
        ∃ s : String, handler env u now "POST" body
          = .reply 200 true (some (.jstr s)) none now) := by
  refine ⟨?_, ?_, ?_⟩
  · simp [assessLegalRisk, callGemini, hg]
  · simp [assessLegalRisk, callGemini, hg, objKeys]
  · intro hkey body hmem
    simp only [List.mem_cons, List.not_mem_nil, or_false] at hmem
    rcases hmem with h | h | h | h | h
    · exact ⟨askLegalQuestion env u body.question body.documentContext,
        by simp [handler, hkey, h]⟩
    · exact ⟨summarizeDocument env u body.documentText body.summaryType
        body.summaryLength, by simp [handler, hkey, h]⟩
    · exact ⟨translateText env u body.text body.sourceLang body.targetLang,
        by simp [handler, hkey, h]⟩
    · exact ⟨performSemanticSearch env u body.query body.documentText,
        by simp [handler, hkey, h]⟩
    · exact ⟨compareDocuments env u body.doc1Text body.doc2Text,
        by simp [handler, hkey, h]⟩

/-- C7 amended witness. -/
theorem c7_risk_shape_witness :
    assessLegalRisk env0 (uGem "RISK") "t0" "doc"
      = .jobj [("nlpAnalysis", riskNlpJ env0 (uGem "RISK") "doc"),
               ("aiAssessment", .jstr "RISK"), ("timestamp", .jstr "t0")] :=
  (c7_risk_shape env0 (uGem "RISK") "t0" "doc" "RISK" rfl).1

/-! ## C4 — helper lemmas on the regex-strip model -/

/-- The marker splits as the opening bracket plus the bare marker text. -/
theorem leMarker_cons : leMarker = '[' :: leInner := rfl

theorem leInner_len : leInner.length = 15 := rfl

theorem prefToInf {a b : List Char} (h : a <+: b) : a <:+: b := by
  obtain ⟨t, ht⟩ := h
  exact ⟨[], t, by simp [ht]⟩

theorem sufToInf {a b : List Char} (h : a <:+ b) : a <:+: b := by
  obtain ⟨s, hs⟩ := h
  exact ⟨s, [], by simp [hs]⟩

theorem infCons {a b : List Char} {c : Char} (h : a <:+: b) : a <:+: c :: b := by
  obtain ⟨s, t, hst⟩ := h
  exact ⟨c :: s, t, by simp [hst]⟩

theorem infTrans {a b c : List Char} (h1 : a <:+: b) (h2 : b <:+: c) : a <:+: c := by
  obtain ⟨s, t, hst⟩ := h1
  obtain ⟨s2, t2, hst2⟩ := h2
  exact ⟨s2 ++ s, t ++ t2, by rw [← hst2, ← hst]; simp⟩

theorem stripLEAux_nil : ∀ fuel, stripLEAux fuel [] = []
  | 0 => rfl
  | _ + 1 => rfl

theorem stripLEAux_cons_nomatch (fuel : Nat) (c : Char) (rest : List Char)
    (h : leMarker.isPrefixOf (c :: rest) = false) :
    stripLEAux (fuel + 1) (c :: rest) = c :: stripLEAux fuel rest := by
  simp [stripLEAux, h]

theorem stripLEAux_cons_ne (fuel : Nat) (c : Char) (rest : List Char) (hc : ¬ c = '[') :
    stripLEAux (fuel + 1) (c :: rest) = c :: stripLEAux fuel rest := by
  apply stripLEAux_cons_nomatch
  rw [Bool.eq_false_iff]
  intro h
  rw [leMarker_cons] at h
  simp at h
  exact hc h.1.symm

theorem findCloseIdx_append (ns : List Char)
    (hns : ∀ c ∈ ns, ¬(c = ']') ∧ isLineTerm c = false) :
    findCloseIdx (ns ++ [']']) = some ns.length := by
  induction ns with
  | nil => rfl
  | cons c rest ih =>
    have hc := hns c (by simp)
    have hrest : ∀ x ∈ rest, ¬(x = ']') ∧ isLineTerm x = false :=
      fun x hx => hns x (by simp [hx])
    simp [findCloseIdx, hc.1, hc.2, ih hrest]

theorem stripLEAux_cons_match (fuel : Nat) (c : Char) (rest : List Char) (i : Nat)
    (hpre : leMarker.isPrefixOf (c :: rest) = true)
    (hclose : findCloseIdx ((c :: rest).drop leMarker.length) = some i) :
    stripLEAux (fuel + 1) (c :: rest)
      = stripLEAux fuel (((c :: rest).drop leMarker.length).drop (i + 1)) := by
  simp [stripLEAux, hpre, hclose]

theorem stripLEAux_marker (ns : List Char) (fuel : Nat)
    (hns : ∀ c ∈ ns, ¬(c = ']') ∧ isLineTerm c = false) :
    stripLEAux (fuel + 1) ('[' :: (leInner ++ (' ' :: (ns ++ [']'])))) = [] := by
  have hpre : leMarker.isPrefixOf ('[' :: (leInner ++ (' ' :: (ns ++ [']'])))) = true := by
    rw [leMarker_cons]
    simp [List.cons_prefix_cons]
  have hdrop : (('[' : Char) :: (leInner ++ (' ' :: (ns ++ [']'])))).drop leMarker.length
      = ' ' :: (ns ++ [']']) := by
    rw [show leMarker.length = leInner.length + 1 from rfl, List.drop_succ_cons]
    exact List.drop_left _ _
  have hclose :
      findCloseIdx ((('[' : Char) :: (leInner ++ (' ' :: (ns ++ [']'])))).drop leMarker.length)
        = some (ns.length + 1) := by
    rw [hdrop]
    simp [findCloseIdx, isLineTerm, findCloseIdx_append ns hns]
  rw [stripLEAux_cons_match fuel _ _ _ hpre hclose, hdrop]
  have hl : (' ' :: (ns ++ [']'])).length = ns.length + 1 + 1 := by simp
  rw [show (' ' :: (ns ++ [']'])).drop (ns.length + 1 + 1) = [] from by
    rw [← hl, List.drop_length]]
  exact stripLEAux_nil fuel

theorem marker_no_match_head {c : Char} {tl : List Char}
    (hni : ¬ leInner <:+: (c :: tl)) :
    leMarker.isPrefixOf (c :: tl) = false := by
  rw [Bool.eq_false_iff]
  intro htrue
  have hp : leMarker <+: c :: tl := by simpa using htrue
  rw [leMarker_cons, List.cons_prefix_cons] at hp
  exact hni (infCons (prefToInf hp.2))

theorem marker_no_match_mid {c : Char} {tl rest2 : List Char}
    (hni : ¬ leInner <:+: (c :: tl)) :
    leMarker.isPrefixOf (c :: (tl ++ '\n' :: rest2)) = false := by
  rw [Bool.eq_false_iff]
  intro htrue
  have hp : leMarker <+: c :: (tl ++ '\n' :: rest2) := by simpa using htrue
  rw [leMarker_cons, List.cons_prefix_cons] at hp
  obtain ⟨-, hp⟩ := hp
  rcases Nat.lt_or_ge tl.length 15 with hlt | hge
  · have htlp : tl <+: tl ++ '\n' :: rest2 := ⟨'\n' :: rest2, rfl⟩
    have h1 : tl <+: leInner :=
      List.prefix_of_prefix_length_le htlp hp (by rw [leInner_len]; omega)
    obtain ⟨r, hr⟩ := h1
    have hrne : r ≠ [] := by
      intro h0
      rw [h0, List.append_nil] at hr
      have hlen := congrArg List.length hr
      rw [leInner_len] at hlen
      omega
    obtain ⟨a, r', rfl⟩ := List.exists_cons_of_ne_nil hrne
    have h2 : a :: r' <+: '\n' :: rest2 := by
      rw [← hr] at hp
      exact (List.prefix_append_right_inj tl).mp hp
    rw [List.cons_prefix_cons] at h2
    obtain ⟨rfl, -⟩ := h2
    have hmem : ('\n' : Char) ∈ leInner := by rw [← hr]; simp
    exact absurd hmem (by decide)
  · have h1 : leInner <+: tl :=
      List.prefix_of_prefix_length_le hp ⟨'\n' :: rest2, rfl⟩ (by rw [leInner_len]; omega)
    exact hni (infCons (prefToInf h1))

theorem stripLEAux_id : ∀ (tl : List Char) (fuel : Nat),
    ¬ leInner <:+: tl → stripLEAux fuel tl = tl
  | [], fuel, _ => stripLEAux_nil fuel
  | _ :: _, 0, _ => rfl
  | c :: tl, fuel + 1, hni => by
    rw [stripLEAux_cons_nomatch fuel c tl (marker_no_match_head hni)]
    rw [stripLEAux_id tl fuel (fun h => hni (infCons h))]

theorem stripLEAux_clean (ns : List Char)
    (hns : ∀ c ∈ ns, ¬(c = ']') ∧ isLineTerm c = false) :
    ∀ (tl : List Char) (fuel : Nat),
      tl.length + (20 + ns.length) ≤ fuel →
      ¬ leInner <:+: tl →
      stripLEAux fuel (tl ++ ('\n' :: '\n' :: (leMarker ++ (' ' :: (ns ++ [']'])))))
        = tl ++ ['\n', '\n']
  | [], fuel, hfuel, _ => by
    obtain ⟨f2, rfl⟩ : ∃ f2, fuel = f2 + 1 + 1 + 1 := ⟨fuel - 3, by simp at hfuel; omega⟩
    simp only [List.nil_append]
    rw [stripLEAux_cons_ne _ _ _ (by decide), stripLEAux_cons_ne _ _ _ (by decide),
      leMarker_cons, List.cons_append, stripLEAux_marker ns f2 hns]
  | c :: tl, fuel, hfuel, hni => by
    obtain ⟨f1, rfl⟩ : ∃ f1, fuel = f1 + 1 := ⟨fuel - 1, by simp at hfuel; omega⟩
    rw [List.cons_append]
    rw [stripLEAux_cons_nomatch f1 c _ (marker_no_match_mid hni)]
    rw [stripLEAux_clean ns hns tl f1 (by simp at hfuel ⊢; omega)
      (fun h => hni (infCons h))]
    simp

theorem trimL_append_nn (l : List Char) : trimL (l ++ ['\n', '\n']) = trimL l := by
  unfold trimL
  rw [List.dropWhile_append]
  by_cases h : (List.dropWhile jsWs l).isEmpty
  · rw [if_pos h]
    have h0 : List.dropWhile jsWs l = [] := by simpa using h
    rw [h0]
    rfl
  · rw [if_neg h]
    rw [List.reverse_append]
    have hws : List.dropWhile jsWs (['\n', '\n'].reverse ++ (List.dropWhile jsWs l).reverse)
        = List.dropWhile jsWs ((List.dropWhile jsWs l).reverse) := by
      simp [jsWs]
    rw [hws]

theorem trimL_infixL (l : List Char) : trimL l <:+: l := by
  have h1 : List.dropWhile jsWs l <:+ l := List.dropWhile_suffix jsWs
  have h2 : trimL l <+: List.dropWhile jsWs l := by
    unfold trimL
    have h := List.reverse_prefix.mpr
      (List.dropWhile_suffix (l := (List.dropWhile jsWs l).reverse) jsWs)
    simpa using h
  exact infTrans (prefToInf h2) (sufToInf h1)

/-- Core containment transfer: a string whose character list sits inside a
clean list does not contain the marker text. -/
theorem not_contains_of_infix_clean (a : String) (l : List Char)
    (h : a.data <:+: l) (hni : ¬ leInner <:+: l) :
    containsStr a "Legal entities:" = false := by
  have hno : ¬ ("Legal entities:".data <:+: a.data) := fun hx => hni (infTrans hx h)
  simpa [containsStr] using decide_eq_false hno

theorem joinComma_mem (l : List String) (c : Char) (hc : c ∈ (joinComma l).data) :
    c = ',' ∨ c = ' ' ∨ ∃ s ∈ l, c ∈ s.data := by
  induction l with
  | nil => simp [joinComma] at hc
  | cons s rest ih =>
    cases rest with
    | nil =>
      right; right
      exact ⟨s, by simp, by simpa [joinComma] using hc⟩
    | cons s2 rest2 =>
      have hd : ∀ a b : String, (a ++ b).data = a.data ++ b.data := fun _ _ => rfl
      rw [show joinComma (s :: s2 :: rest2) = s ++ ", " ++ joinComma (s2 :: rest2) from rfl,
        hd, hd, show (", " : String).data = [',', ' '] from rfl] at hc
      simp only [List.mem_append, List.mem_cons, List.not_mem_nil, or_false] at hc
      rcases hc with (hs | (h | h)) | hc2
      · exact Or.inr (Or.inr ⟨s, by simp, hs⟩)
      · exact Or.inl h
      · exact Or.inr (Or.inl h)
      · rcases ih hc2 with h | h | ⟨s3, hs3, hcs3⟩
        · exact Or.inl h
        · exact Or.inr (Or.inl h)
        · exact Or.inr (Or.inr ⟨s3, by simp [hs3], hcs3⟩)

/-- The strip pass on a clean text followed by one well-formed context note
removes exactly the note. -/
theorem strip_clean (text joined : String)
    (hni : ¬ leInner <:+: text.data)
    (hj : ∀ c ∈ joined.data, ¬(c = ']') ∧ isLineTerm c = false) :
    stripLegalEnt (text ++ "\n\n[Legal entities: " ++ joined ++ "]") = text ++ "\n\n" := by
  have hd : ∀ a b : String, (a ++ b).data = a.data ++ b.data := fun _ _ => rfl
  have hdata : (text ++ "\n\n[Legal entities: " ++ joined ++ "]").data
      = text.data ++ ('\n' :: '\n' :: (leMarker ++ (' ' :: (joined.data ++ [']'])))) := by
    rw [hd, hd, hd, show ("\n\n[Legal entities: " : String).data
        = '\n' :: '\n' :: (leMarker ++ [' ']) from rfl,
      show ("]" : String).data = [']'] from rfl]
    simp [List.append_assoc]
  unfold stripLegalEnt
  rw [hdata]
  have hfuel : text.data.length + (20 + joined.data.length)
      ≤ (text.data ++ ('\n' :: '\n' :: (leMarker ++ (' ' :: (joined.data ++ [']']))))).length := by
    simp [show leMarker.length = 16 from rfl]
    omega
  rw [stripLEAux_clean joined.data hj text.data _ hfuel hni]
  rfl

/-- The strip pass is the identity on a clean text, and the trimmed result
stays clean. -/
theorem contains_strip_self (text : String) (hni : ¬ leInner <:+: text.data) :
    containsStr (jsTrim (stripLegalEnt text)) "Legal entities:" = false := by
  rw [show stripLegalEnt text = text from by
    show String.mk (stripLEAux text.data.length text.data) = text
    rw [stripLEAux_id text.data _ hni]]
  exact not_contains_of_infix_clean _ text.data (trimL_infixL text.data) hni

/-! ## C4 — the claim itself -/

/-- C4 counterexample: an input whose own text contains `Legal entities:`
(outside any bracketed note).  The operation appends its context note
(`contextNoteAdded … = true`), the upstream echo returns the request
verbatim, the fixed pattern removal strips the injected note — yet the
returned translation still contains the substring `Legal entities:`,
refuting the claim as stated. -/
theorem c4_counterexample :
    contextNoteAdded envNlpTr uEcho textCE = true ∧
    containsStr (translateText envNlpTr uEcho textCE "en" "hi") "Legal entities:" = true := by
  constructor
  · decide
  · decide

/-- C4 amended: with the translation service configured and a deterministic
upstream that returns the request text verbatim, if the input text does not
itself contain the substring `Legal entities:` and no entity name contains a
`]` or a line-terminator character, then the string returned by
`translateText` does not contain `Legal entities:` — every injected
annotation is stripped by the fixed text-pattern removal. -/
theorem c4_translate_strip (env : Env) (u : Upstream) (text sourceLang targetLang : String)
    (hsvc : (mkServices env).translation = true)
    (htr : ∀ q a b, u.translateApi q a b = Except.ok q)
    (htext : containsStr text "Legal entities:" = false)
    (hents : ∀ e ∈ translateEnts u text,
        (']' ∉ e.name.data) ∧ ∀ c ∈ e.name.data, isLineTerm c = false) :
    containsStr (translateText env u text sourceLang targetLang) "Legal entities:" = false := by
  have hni : ¬ leInner <:+: text.data := of_decide_eq_false htext
  rw [show translateText env u text sourceLang targetLang
      = jsTrim (stripLegalEnt (contextualTextOf env u text)) from by
    simp [translateText, hsvc, htr]]
  by_cases h1 : (mkServices env).nlp ∧ 100 < text.length
  · by_cases h2 : 0 < (translateEnts u text).length
    · have hctx : contextualTextOf env u text
          = text ++ "\n\n[Legal entities: "
              ++ joinComma ((translateEnts u text).map NLEntity.name) ++ "]" := by
        simp [contextualTextOf, h1, h2]
      have hj : ∀ c ∈ (joinComma ((translateEnts u text).map NLEntity.name)).data,
          ¬(c = ']') ∧ isLineTerm c = false := by
        intro c hc
        rcases joinComma_mem _ c hc with rfl | rfl | ⟨s, hs, hcs⟩
        · exact ⟨by decide, by decide⟩
        · exact ⟨by decide, by decide⟩
        · obtain ⟨e, he, rfl⟩ := List.mem_map.mp hs
          obtain ⟨hbr, hlt⟩ := hents e he
          exact ⟨fun hceq => hbr (hceq ▸ hcs), hlt c hcs⟩
      rw [hctx, strip_clean text _ hni hj]
      apply not_contains_of_infix_clean _ text.data ?_ hni
      show trimL (text ++ "\n\n").data <:+: text.data
      rw [show (text ++ "\n\n").data = text.data ++ ['\n', '\n'] from rfl, trimL_append_nn]
      exact trimL_infixL text.data
    · rw [show contextualTextOf env u text = text from by simp [contextualTextOf, h1, h2]]
      exact contains_strip_self text hni
  · rw [show contextualTextOf env u text = text from by simp [contextualTextOf, h1]]
    exact contains_strip_self text hni

/-- C4 amended witness: a clean 101-character input on which the context
note is really appended, stripped, and absent from the result. -/
theorem c4_translate_strip_witness :
    contextNoteAdded envNlpTr uEcho textW = true ∧
    containsStr (translateText envNlpTr uEcho textW "en" "hi") "Legal entities:" = false :=
  ⟨by decide, c4_translate_strip envNlpTr uEcho textW "en" "hi" (by decide)
    (fun _ _ _ => rfl) (by decide) (by decide)⟩

end LegalDoc
